import Mathlib

/-!
Verification of `torchmetrics/functional/text/wer.py`: word error rate.

The module computes the word error rate (WER) of a batch of predicted
transcriptions against reference transcriptions: each string is split on
whitespace into word tokens, the unit-cost Levenshtein edit distance between
each prediction/reference token pair is summed, and the sum is divided by the
total number of reference tokens.

Embedding choices:
* Python strings are Lean `String`s; word tokens are `List Char`.
* `str.split()` (Python, no separator argument: split on runs of whitespace,
  discarding empty tokens) is embedded as `tokenize` below, over the full set
  of ASCII and Unicode whitespace characters Python treats as separators.
* The accumulators `errors` and `total` are float tensors in the source but
  only ever hold (small) whole numbers, so they are embedded as `ℕ`.
* The final division `errors / total` is float tensor division; a division by
  zero produces a non-finite IEEE value (NaN for 0/0, inf otherwise).  Finite
  results of the source are exactly representable, so the rate is embedded as
  `Option ℚ`, with `none` standing for the non-finite value produced when
  `total = 0`.
-/

/-- A word token: Python `str.split()` yields strings, modelled as `List Char`. -/
abbrev Token := List Char

/-- The whitespace characters on which Python 3 `str.split()` splits: the
ASCII whitespace and separator characters (tab \x09, newline \x0a, vertical
tab \x0b, form feed \x0c, carriage return \x0d, the file, group, record and
unit separators \x1c-\x1f, space \x20) together with the Unicode whitespace
code points (next line \x85, no-break space \xa0, ogham space mark \u1680,
the typographic spaces \u2000-\u200a, line separator \u2028, paragraph
separator \u2029, narrow no-break space \u202f, medium mathematical space
\u205f, ideographic space \u3000). -/
def isPySpace (c : Char) : Bool :=
  c = ' ' || c = '\t' || c = '\n' || c = '\x0b' || c = '\x0c' || c = '\r' ||
  c = '\x1c' || c = '\x1d' || c = '\x1e' || c = '\x1f' ||
  c = '\x85' || c = '\xa0' || c = '\u1680' ||
  c = '\u2000' || c = '\u2001' || c = '\u2002' || c = '\u2003' || c = '\u2004' ||
  c = '\u2005' || c = '\u2006' || c = '\u2007' || c = '\u2008' || c = '\u2009' ||
  c = '\u200a' || c = '\u2028' || c = '\u2029' || c = '\u202f' || c = '\u205f' ||
  c = '\u3000'

/-- Worker for `tokenize`: scan the characters, accumulating the current word
(in reverse) in `cur`; whitespace ends the current word, and empty words are
never produced. -/
def splitTokensAux : List Char → List Char → List Token
  | [], cur => if cur.isEmpty then [] else [cur.reverse]
  | c :: cs, cur =>
    if isPySpace c then
      if cur.isEmpty then splitTokensAux cs []
      else cur.reverse :: splitTokensAux cs []
    else splitTokensAux cs (c :: cur)

/-- Embedding of Python `s.split()` as used by `_wer_update` (wer.py lines
45–46): split on runs of whitespace, discarding empty tokens. -/
def tokenize (s : String) : List Token :=
  splitTokensAux s.data []

/-- Modelled from the spec: `_edit_distance`, imported by wer.py line 21 from
`torchmetrics.functional.text.helper`, is not part of the provided sources.
Spec §4.1 specifies it as the classic unit-cost Levenshtein distance (every
insertion, deletion and substitution costs exactly 1), which is
`levenshtein Levenshtein.defaultCost`. -/
def editDistance (a b : List Token) : ℕ :=
  levenshtein Levenshtein.defaultCost a b

/-- The `Union[str, List[str]]` argument type of the Python entry points. -/
inductive StrOrList where
  | str : String → StrOrList
  | list : List String → StrOrList
deriving DecidableEq

/-- The normalization at wer.py lines 38–41: a bare string becomes a
singleton batch. -/
def toStringList : StrOrList → List String
  | .str s => [s]
  | .list l => l

/-- Embedding of `_wer_update` (wer.py lines 24–49): iterate over the zipped
prediction/reference pairs (Python `zip` truncates to the shorter list, as
does `List.zip`), accumulating edit distances and reference token counts. -/
def werUpdate (predictions references : StrOrList) : ℕ × ℕ :=
  ((toStringList predictions).zip (toStringList references)).foldl
    (fun acc pr =>
      (acc.1 + editDistance (tokenize pr.1) (tokenize pr.2),
       acc.2 + (tokenize pr.2).length))
    (0, 0)

/-- Embedding of `_wer_compute` (wer.py lines 52–62): `errors / total` as
float tensor division.  `none` models the non-finite IEEE value produced
when `total = 0`. -/
def werCompute (errors total : ℕ) : Option ℚ :=
  if total = 0 then none else some ((errors : ℚ) / (total : ℚ))

/-- Embedding of `word_error_rate` (wer.py lines 65–87). -/
def word_error_rate (predictions references : StrOrList) : Option ℚ :=
  werCompute (werUpdate predictions references).1 (werUpdate predictions references).2

/-- The deprecation message emitted by `wer` (wer.py line 105). -/
def werDeprecationMessage : String :=
  "`wer` was renamed to `word_error_rate` in v0.7 and it will be removed in v0.8"

/-- Embedding of the deprecated alias `wer` (wer.py lines 90–106): it warns
and forwards.  The first component is the list of warnings emitted, the
second the returned value. -/
def wer (predictions references : StrOrList) : List String × Option ℚ :=
  ([werDeprecationMessage], word_error_rate predictions references)

/-! ## Helper lemmas -/

/-- A fold accumulating two sums componentwise equals the pair of the sums. -/
theorem foldl_acc_sum (f g : String × String → ℕ) (l : List (String × String)) (a b : ℕ) :
    l.foldl (fun acc pr => (acc.1 + f pr, acc.2 + g pr)) (a, b)
      = (a + (l.map f).sum, b + (l.map g).sum) := by
  induction l generalizing a b with
  | nil => simp
  | cons p t ih => simp [ih, Nat.add_assoc]

/-- `werUpdate` on two lists is the pair of the summed per-pair edit
distances and the summed reference token counts. -/
theorem werUpdate_list_eq (ps rs : List String) :
    werUpdate (.list ps) (.list rs)
      = (((ps.zip rs).map fun pr => editDistance (tokenize pr.1) (tokenize pr.2)).sum,
         ((ps.zip rs).map fun pr => (tokenize pr.2).length).sum) := by
  simpa [werUpdate, toStringList] using foldl_acc_sum _ _ (ps.zip rs) 0 0

/-- Zipping ignores the elements beyond the shorter of the two lists. -/
theorem zip_eq_zip_take_min (ps rs : List String) :
    ps.zip rs
      = (ps.take (min ps.length rs.length)).zip (rs.take (min ps.length rs.length)) := by
  induction ps generalizing rs with
  | nil => simp
  | cons p pt ih =>
    cases rs with
    | nil => simp
    | cons r rt =>
      simp only [List.zip_cons_cons, List.length_cons, Nat.succ_min_succ, List.take_succ_cons]
      rw [← ih rt]

/-- Scanning a run of whitespace characters yields no token. -/
theorem splitTokensAux_all_space (cs : List Char) (h : ∀ c ∈ cs, isPySpace c = true) :
    splitTokensAux cs [] = [] := by
  induction cs with
  | nil => rfl
  | cons c t ih =>
    have hc : isPySpace c = true := h c (List.mem_cons_self c t)
    have ht : ∀ x ∈ t, isPySpace x = true := fun x hx => h x (List.mem_cons_of_mem c hx)
    simp [splitTokensAux, hc, ih ht]

/-- The empty string has no tokens. -/
theorem tokenize_empty : tokenize "" = [] := rfl

/-- Unit-cost Levenshtein distance of a sequence to itself is zero. -/
theorem editDistance_self (X : List Token) : editDistance X X = 0 := by
  induction X with
  | nil => simp [editDistance, levenshtein_nil_nil]
  | cons x xs ih =>
    simp only [editDistance] at ih ⊢
    rw [levenshtein_cons_cons]
    simp [ih]

/-- Zipping the projections of a list of pairs gives back the list. -/
theorem zip_fst_snd (l : List (String × String)) :
    (l.map Prod.fst).zip (l.map Prod.snd) = l := by
  induction l with
  | nil => rfl
  | cons p t ih => simp [ih]

/-! ## Claims -/

/-- C1: on the documented example batch, `word_error_rate` returns exactly
1/2 (4 total edit operations over 8 total reference tokens). -/
theorem word_error_rate_doc_example :
    word_error_rate (.list ["this is the prediction", "there is an other sample"])
      (.list ["this is the reference", "there is another one"]) = some (1 / 2) := by
  have h : werUpdate (.list ["this is the prediction", "there is an other sample"])
      (.list ["this is the reference", "there is another one"]) = (4, 8) := by decide
  rw [word_error_rate, h]
  norm_num [werCompute]

/-- C2: for equal-length batches, `werUpdate` returns the sum of the
per-pair edit distances paired with the sum of the reference token counts. -/
theorem werUpdate_sums (ps rs : List String) (_h : ps.length = rs.length) :
    werUpdate (.list ps) (.list rs)
      = (((ps.zip rs).map fun pr => editDistance (tokenize pr.1) (tokenize pr.2)).sum,
         ((ps.zip rs).map fun pr => (tokenize pr.2).length).sum) :=
  werUpdate_list_eq ps rs

/-- Witness for C2 at a concrete equal-length batch. -/
theorem werUpdate_sums_witness :
    (["x y", "z"] : List String).length = (["x w", "z"] : List String).length ∧
    werUpdate (.list ["x y", "z"]) (.list ["x w", "z"])
      = ((((["x y", "z"] : List String).zip ["x w", "z"]).map
            fun pr => editDistance (tokenize pr.1) (tokenize pr.2)).sum,
         (((["x y", "z"] : List String).zip ["x w", "z"]).map
            fun pr => (tokenize pr.2).length).sum) :=
  ⟨rfl, werUpdate_sums ["x y", "z"] ["x w", "z"] rfl⟩

/-- C3: when the total reference token count is zero the rate is the
sentinel `none` (modelling the NaN the host produces for 0/0), never a
crash; in particular on predictions = "", references = "". -/
theorem werCompute_zero_total :
    (∀ errors : ℕ, werCompute errors 0 = none) ∧
    word_error_rate (.str "") (.str "") = none :=
  ⟨fun _ => rfl, rfl⟩

/-- C4: on lists of different lengths, `werUpdate` silently truncates the
batch to the shorter list: it equals `werUpdate` on both lists truncated to
the minimum length. -/
theorem werUpdate_truncates (ps rs : List String) :
    werUpdate (.list ps) (.list rs)
      = werUpdate (.list (ps.take (min ps.length rs.length)))
          (.list (rs.take (min ps.length rs.length))) := by
  simp only [werUpdate, toStringList]
  rw [← zip_eq_zip_take_min]

/-- C5: a bare string on either side is treated as a batch of size 1. -/
theorem word_error_rate_single (p r : String) (ps rs : List String) :
    word_error_rate (.str p) (.str r) = word_error_rate (.list [p]) (.list [r]) ∧
    word_error_rate (.str p) (.list rs) = word_error_rate (.list [p]) (.list rs) ∧
    word_error_rate (.list ps) (.str r) = word_error_rate (.list ps) (.list [r]) :=
  ⟨rfl, rfl, rfl⟩

/-- C6: reordering the pairs of a batch does not change the rate. -/
theorem word_error_rate_perm (l l' : List (String × String)) (h : l.Perm l') :
    word_error_rate (.list (l.map Prod.fst)) (.list (l.map Prod.snd))
      = word_error_rate (.list (l'.map Prod.fst)) (.list (l'.map Prod.snd)) := by
  simp only [word_error_rate, werUpdate_list_eq, zip_fst_snd]
  rw [(h.map _).sum_eq, (h.map _).sum_eq]

/-- Witness for C6 at a concrete two-element batch and its swap. -/
theorem word_error_rate_perm_witness :
    word_error_rate (.list ([("a", "b"), ("c", "d e")].map Prod.fst))
        (.list ([("a", "b"), ("c", "d e")].map Prod.snd))
      = word_error_rate (.list ([("c", "d e"), ("a", "b")].map Prod.fst))
          (.list ([("c", "d e"), ("a", "b")].map Prod.snd)) :=
  word_error_rate_perm _ _ (List.Perm.swap _ _ _)

/-- C7: the distance engine is zero on identical sequences, and a string
with at least one token scored against itself has rate 0. -/
theorem word_error_rate_self :
    (∀ X : List Token, editDistance X X = 0) ∧
    ∀ p : String, tokenize p ≠ [] → word_error_rate (.str p) (.str p) = some 0 := by
  refine ⟨editDistance_self, fun p hp => ?_⟩
  have hlen : (tokenize p).length ≠ 0 := by
    simpa [List.length_eq_zero] using hp
  simp [word_error_rate, werUpdate, toStringList, werCompute, editDistance_self, hlen]

/-- Witness for C7 at the concrete string "a b c". -/
theorem word_error_rate_self_witness :
    editDistance [(['a'] : Token)] [['a']] = 0 ∧
    tokenize "a b c" ≠ [] ∧
    word_error_rate (.str "a b c") (.str "a b c") = some 0 :=
  ⟨word_error_rate_self.1 [['a']], by decide,
   word_error_rate_self.2 "a b c" (by decide)⟩

/-- C9: the rate can exceed 1: predictions = ["a b c"] against
references = ["a"] gives 2/1 = 2 > 1. -/
theorem word_error_rate_gt_one :
    ∃ q : ℚ, word_error_rate (.list ["a b c"]) (.list ["a"]) = some q ∧ 1 < q := by
  refine ⟨2, ?_, by norm_num⟩
  have h : werUpdate (.list ["a b c"]) (.list ["a"]) = (2, 1) := by decide
  rw [word_error_rate, h]
  norm_num [werCompute]

/-- C10: whitespace-only strings tokenize to nothing, so any pair of them
scores exactly like the pair of empty strings. -/
theorem word_error_rate_whitespace_only (p r : String)
    (hp : ∀ c ∈ p.data, isPySpace c = true) (hr : ∀ c ∈ r.data, isPySpace c = true) :
    word_error_rate (.str p) (.str r) = word_error_rate (.str "") (.str "") := by
  have h1 : tokenize p = [] := splitTokensAux_all_space p.data hp
  have h2 : tokenize r = [] := splitTokensAux_all_space r.data hr
  simp [word_error_rate, werUpdate, toStringList, h1, h2, tokenize_empty]

/-- Witness for C10 at a space-tab string and a string made of a file
separator, a no-break space and an ideographic space. -/
theorem word_error_rate_whitespace_only_witness :
    (∀ c ∈ (" \t" : String).data, isPySpace c = true) ∧
    (∀ c ∈ ("\x1c\xa0\u3000" : String).data, isPySpace c = true) ∧
    word_error_rate (.str " \t") (.str "\x1c\xa0\u3000")
      = word_error_rate (.str "") (.str "") :=
  ⟨by decide, by decide,
   word_error_rate_whitespace_only " \t" "\x1c\xa0\u3000" (by decide) (by decide)⟩

/-- C8: the deprecated alias `wer` forwards to `word_error_rate`, its only
extra behavior being the emission of the deprecation message. -/
theorem wer_forwards (predictions references : StrOrList) :
    (wer predictions references).2 = word_error_rate predictions references ∧
    (wer predictions references).1 = [werDeprecationMessage] :=
  ⟨rfl, rfl⟩
